import Mathlib

/-!
Shallow embedding of the productivity dashboard's scoring engine
(`src/lib/calculate-rtp.tsx` over the data model of `src/types/index.ts`).

Modelling conventions:

* JavaScript numbers are modelled as real numbers; timestamps are
  milliseconds since the epoch, carried as `ℝ`.
* The ambient wall clock (`new Date()` read inside the source) is threaded
  explicitly as a `Clock` value: `t` is the current epoch-millisecond
  timestamp, `hour` is the local hour that `getHours()` returns, and
  `tomorrowEnd` / `threeDaysEnd` are the two calendar-derived instants the
  source computes in `calculateWorkloadMetrics` ("end of tomorrow, local
  time" and "three days from now"); the calendar arithmetic itself is
  time-zone dependent and is abstracted into these clock fields.
* Optional record fields become `Option`; the JavaScript truthiness test
  `if (x)` on an optional numeric field is `truthyOpt` (present and
  nonzero), on an optional list field it is the `.getD [] ≠ []` test the
  source performs via `x && x.length > 0`.
* Accumulation loops (`forEach` with `+=`) become list folds or sums.
-/

namespace Dashboard

/-- The TypeScript `PriorityScale` type of `types/index.ts`: an integer
between 1 and 10. -/
def PriorityScale : Type := {n : ℕ // 1 ≤ n ∧ n ≤ 10}

/-- `SubTask` from `types/index.ts`. -/
structure SubTask where
  name : String
  description : String
  startDateTime : ℝ
  endDateTime : ℝ
  completed : Bool
  type : String
  priority : Option PriorityScale
  estimatedMinutes : Option ℝ
  actualMinutes : Option ℝ
  blockedBy : Option (List String)

/-- `Task` from `types/index.ts` (the fields the engine reads). -/
structure Task where
  name : String
  description : String
  startDateTime : ℝ
  endDateTime : ℝ
  completed : Bool
  type : String
  priority : Option PriorityScale
  subTasks : Option (List SubTask)
  estimatedMinutes : Option ℝ
  actualMinutes : Option ℝ
  blockedBy : Option (List String)
  collaborators : Option (List String)

/-- One entry of `UserPreferences.productiveHours`: an hour-of-day window
`{start, end}` (fields renamed `rstart`/`rend` because `end` is a Lean
keyword). -/
structure ProductiveRange where
  rstart : ℤ
  rend : ℤ

/-- `UserPreferences.weightPreferences` from `types/index.ts`. -/
structure WeightPreferences where
  deadline : ℝ
  priority : ℝ
  complexity : ℝ

/-- `UserPreferences` from `types/index.ts`. -/
structure UserPreferences where
  productiveHours : Option (List ProductiveRange)
  preferredTaskTypes : Option (List String)
  workloadCapacity : Option ℝ
  weightPreferences : Option WeightPreferences

/-- `User` from `types/index.ts` (the fields the engine reads). -/
structure User where
  name : String
  tasks : List Task
  preferences : Option UserPreferences

/-- The ambient clock threaded through the engine (see the module
docstring). -/
structure Clock where
  t : ℝ
  hour : ℤ
  tomorrowEnd : ℝ
  threeDaysEnd : ℝ

/-- JavaScript truthiness of an optional numeric field: present and
nonzero (`if (task.estimatedMinutes)` and friends). -/
abbrev truthyOpt (o : Option ℝ) : Prop := o.getD 0 ≠ 0

/-- The early-return test of `calculateRTP`'s task loop:
`if (filterType && taskType !== filterType) return`.  The empty string is
falsy, so it never filters. -/
def filterMismatch (filterType : Option String) (ty : String) : Bool :=
  match filterType with
  | none => false
  | some f => decide (f ≠ "") && decide (f ≠ ty)

/-- `getPriorityWeight` from `calculate-rtp.tsx`: an explicit 1-10
priority is used unchanged (all its values are truthy), otherwise the
tier map LOW=2, MID=5, HIGH=8 with default 5. -/
noncomputable def getPriorityWeight (priority : Option PriorityScale) (ty : String) : ℝ :=
  match priority with
  | some p => (p.val : ℝ)
  | none => if ty = "LOW" then 2 else if ty = "MID" then 5 else if ty = "HIGH" then 8 else 5

/-- Base weight of one subtask inside `calculateSubtaskContribution`. -/
noncomputable def subtaskWeight (st : SubTask) : ℝ := getPriorityWeight st.priority st.type

/-- The `totalSubtaskWeight` accumulator of `calculateSubtaskContribution`. -/
noncomputable def totalSubtaskWeight (l : List SubTask) : ℝ := (l.map subtaskWeight).sum

/-- The `weightedCompletion` accumulator of `calculateSubtaskContribution`
(sum of the weights of the completed subtasks). -/
noncomputable def weightedCompletion (l : List SubTask) : ℝ :=
  ((l.filter (fun st => st.completed)).map subtaskWeight).sum

/-- Return shape of `calculateSubtaskContribution`. -/
structure SubContribution where
  completedWeight : ℝ
  totalWeight : ℝ
  completedSubtasks : ℕ

/-- `calculateSubtaskContribution` from `calculate-rtp.tsx`. -/
noncomputable def calculateSubtaskContribution (task : Task) : SubContribution :=
  let subtasks := task.subTasks.getD []
  if subtasks.length = 0 then
    { completedWeight := if task.completed then 1 else 0
      totalWeight := 1
      completedSubtasks := if task.completed then 1 else 0 }
  else
    let completedCount := (subtasks.filter (fun st => st.completed)).length
    if 0 < totalSubtaskWeight subtasks then
      { completedWeight := weightedCompletion subtasks / totalSubtaskWeight subtasks
        totalWeight := 1
        completedSubtasks := completedCount }
    else
      { completedWeight := (completedCount : ℝ) / (subtasks.length : ℝ)
        totalWeight := 1
        completedSubtasks := completedCount }

/-- One day in milliseconds (`1000 * 60 * 60 * 24`). -/
noncomputable def dayMs : ℝ := 86400000

/-- The `durationFactor` of `calculateDynamicWeight`:
`max(1, log10(totalTaskDuration / oneDay))`.  (`Math.log10` of a
nonpositive number is NaN in JavaScript; the source only uses this value
when the duration is positive, and `Real.logb` returns 0 there, under the
unreachable branch.) -/
noncomputable def durationFactor (totalTaskDuration : ℝ) : ℝ :=
  max 1 (Real.logb 10 (totalTaskDuration / dayMs))

/-- The urgency factor of `calculateDynamicWeight`, as a function of
`timeRemaining = deadline - now` and
`totalTaskDuration = deadline - start`.  The source initializes it to 1,
overwrites it in the in-progress case (`timeRemaining > 0` and
`totalTaskDuration > 0`) and finally overwrites it again in the overdue
case (`timeRemaining < 0`, where `totalTaskDuration || oneDay` substitutes
a one-day denominator exactly when the duration is zero). -/
noncomputable def urgencyFactor (timeRemaining totalTaskDuration : ℝ) : ℝ :=
  if timeRemaining < 0 then
    min 3 (1 + |timeRemaining| / (if totalTaskDuration = 0 then dayMs else totalTaskDuration))
  else if 0 < timeRemaining ∧ 0 < totalTaskDuration then
    1 + (1 - timeRemaining / totalTaskDuration) * 0.5 * durationFactor totalTaskDuration
  else 1

/-- The complexity factor of `calculateDynamicWeight`: starts at 1, adds
`0.1 * min(10, #subtasks)` when there are subtasks and
`0.1 * min(5, #collaborators)` when there are collaborators. -/
noncomputable def complexityFactor (task : Task) : ℝ :=
  let s :=
    if 0 < (task.subTasks.getD []).length then
      1 + 0.1 * min 10 (((task.subTasks.getD []).length : ℝ))
    else 1
  if 0 < (task.collaborators.getD []).length then
    s + 0.1 * min 5 (((task.collaborators.getD []).length : ℝ))
  else s

/-- The default weight preferences `{deadline: 0.4, priority: 0.4,
complexity: 0.2}` of `calculateDynamicWeight`. -/
noncomputable def defaultPreferences : WeightPreferences :=
  { deadline := 0.4, priority := 0.4, complexity := 0.2 }

/-- `user.preferences?.weightPreferences || defaults`. -/
noncomputable def effectivePreferences (user : User) : WeightPreferences :=
  (user.preferences.bind (fun p => p.weightPreferences)).getD defaultPreferences

/-- The productive-hour test of `calculateDynamicWeight`: the declared
list exists, is nonempty, and some window contains the current hour
(`currentHour >= range.start && currentHour < range.end`). -/
def inProductiveHour (user : User) (clk : Clock) : Bool :=
  match user.preferences.bind (fun p => p.productiveHours) with
  | none => false
  | some l =>
      decide (0 < l.length) &&
        l.any (fun r => decide (r.rstart ≤ clk.hour) && decide (clk.hour < r.rend))

/-- `user.preferences?.workloadCapacity`. -/
def declaredCapacity (user : User) : Option ℝ :=
  user.preferences.bind (fun p => p.workloadCapacity)

/-- `WorkloadMetrics` from `types/index.ts`. -/
structure WorkloadMetrics where
  dailyCapacity : ℝ
  currentLoad : ℕ
  overloadFactor : ℝ
  upcomingDeadlines : ℕ
  blockedTasks : ℕ

/-- `calculateWorkloadMetrics` from `calculate-rtp.tsx`.  The two
calendar instants it derives from `now` are taken from the clock
(`tomorrowEnd`, `threeDaysEnd`); `|| 5` substitutes the default capacity
exactly when the declared capacity is absent or zero (falsy). -/
noncomputable def calculateWorkloadMetrics (user : User) (clk : Clock) : WorkloadMetrics :=
  let dailyCapacity :=
    match declaredCapacity user with
    | some c => if c = 0 then 5 else c
    | none => 5
  let upcomingTasks :=
    user.tasks.filter (fun task => decide (task.endDateTime ≤ clk.tomorrowEnd) && !task.completed)
  let blockedCount :=
    (user.tasks.filter (fun task => !task.completed && decide ((task.blockedBy.getD []) ≠ []))).length
  let currentLoad := upcomingTasks.length
  let upcomingDeadlines :=
    (user.tasks.filter (fun task =>
      decide (task.endDateTime ≤ clk.threeDaysEnd) && decide (clk.tomorrowEnd < task.endDateTime) &&
        !task.completed)).length
  { dailyCapacity := dailyCapacity
    currentLoad := currentLoad
    overloadFactor := (currentLoad : ℝ) / dailyCapacity
    upcomingDeadlines := upcomingDeadlines
    blockedTasks := blockedCount }

/-- Steps 1-3 of `calculateDynamicWeight`: the preference-weighted average
of the priority, urgency and complexity terms. -/
noncomputable def dynamicWeightBase (task : Task) (user : User) (clk : Clock) : ℝ :=
  let baseWeight := getPriorityWeight task.priority task.type
  let preferences := effectivePreferences user
  let urgency := urgencyFactor (task.endDateTime - clk.t) (task.endDateTime - task.startDateTime)
  let complexity := complexityFactor task
  (baseWeight * preferences.priority + baseWeight * urgency * preferences.deadline +
      baseWeight * complexity * preferences.complexity) /
    (preferences.priority + preferences.deadline + preferences.complexity)

/-- Steps 1-4 of `calculateDynamicWeight`: the base weight with the
productive-hour boost (`* 1.1`) applied, before the workload adjustment. -/
noncomputable def dynamicWeightPre (task : Task) (user : User) (clk : Clock) : ℝ :=
  if inProductiveHour user clk then dynamicWeightBase task user clk * 1.1
  else dynamicWeightBase task user clk

/-- `calculateDynamicWeight` from `calculate-rtp.tsx`.  Step 5 raises the
weight to the power 1.2 (real exponentiation) when the user declared a
truthy workload capacity and the workload metrics report an overload
factor above 1. -/
noncomputable def calculateDynamicWeight (task : Task) (user : User) (clk : Clock) : ℝ :=
  match declaredCapacity user with
  | some c =>
      if c ≠ 0 ∧ 1 < (calculateWorkloadMetrics user clk).overloadFactor then
        dynamicWeightPre task user clk ^ (1.2 : ℝ)
      else dynamicWeightPre task user clk
  | none => dynamicWeightPre task user clk

/-- The mutable accumulators of `calculateRTP`'s task loop. -/
structure RTPState where
  weightedCompletedSum : ℝ
  weightedTotalSum : ℝ
  totalEstimatedTime : ℝ
  totalActualTime : ℝ
  tasksWithAccurateEstimates : ℕ
  totalTasks : ℕ
  completedTasks : ℕ
  blockedTasks : ℕ

/-- All accumulators start at zero. -/
noncomputable def initialRTPState : RTPState := ⟨0, 0, 0, 0, 0, 0, 0, 0⟩

/-- The body of `calculateRTP`'s `forEach` loop, as a state transformer:
count the task, early-return on a tier mismatch, then update the blocked
count, the estimate accumulators and the weighted sums. -/
noncomputable def processTask (user : User) (clk : Clock) (filterType : Option String)
    (s : RTPState) (task : Task) : RTPState :=
  let s := { s with totalTasks := s.totalTasks + 1 }
  if filterMismatch filterType task.type then s
  else
    let s :=
      if (task.blockedBy.getD []) ≠ [] then { s with blockedTasks := s.blockedTasks + 1 } else s
    let dynamicWeight := calculateDynamicWeight task user clk
    let s :=
      if truthyOpt task.estimatedMinutes then
        let s := { s with totalEstimatedTime := s.totalEstimatedTime + task.estimatedMinutes.getD 0 }
        if truthyOpt task.actualMinutes then
          { s with totalActualTime := s.totalActualTime + task.actualMinutes.getD 0,
                   tasksWithAccurateEstimates := s.tasksWithAccurateEstimates + 1 }
        else s
      else s
    if 0 < (task.subTasks.getD []).length then
      let c := calculateSubtaskContribution task
      let s :=
        if c.completedSubtasks = (task.subTasks.getD []).length ∧ task.completed then
          { s with completedTasks := s.completedTasks + 1 }
        else s
      { s with weightedCompletedSum := s.weightedCompletedSum + dynamicWeight * c.completedWeight,
               weightedTotalSum := s.weightedTotalSum + dynamicWeight * c.totalWeight }
    else
      let s := if task.completed then { s with completedTasks := s.completedTasks + 1 } else s
      { s with weightedCompletedSum :=
                 s.weightedCompletedSum + (if task.completed then dynamicWeight else 0),
               weightedTotalSum := s.weightedTotalSum + dynamicWeight }

/-- The optional date range passed to `calculateRTP` (fields renamed
`rstart`/`rend` because `end` is a Lean keyword). -/
structure DateRange where
  rstart : ℝ
  rend : ℝ

/-- The date-range filter of `calculateRTP`:
`taskDate >= dateRange.start && taskDate <= dateRange.end`. -/
noncomputable def dateFiltered (user : User) (dateRange : Option DateRange) : List Task :=
  match dateRange with
  | none => user.tasks
  | some r =>
      user.tasks.filter
        (fun task => decide (r.rstart ≤ task.startDateTime) && decide (task.startDateTime ≤ r.rend))

/-- The accumulator state after `calculateRTP`'s loop has run. -/
noncomputable def rtpState (user : User) (filterType : Option String)
    (dateRange : Option DateRange) (clk : Clock) : RTPState :=
  (dateFiltered user dateRange).foldl (processTask user clk filterType) initialRTPState

/-- The `metrics` record returned by `calculateRTP`.  `estimationAccuracy`
is `Option ℝ` because the source returns `null` when no task had both
estimate and actual minutes (and the number 0 on the empty short-circuit
path). -/
structure RTPMetrics where
  estimationAccuracy : Option ℝ
  completionRate : ℝ
  blockedTasksPercentage : ℝ
  averageTaskWeight : ℝ

/-- The record returned by `calculateRTP`. -/
structure RTPResult where
  percentage : ℝ
  score : ℤ
  metrics : RTPMetrics

/-- `calculateRTP` from `calculate-rtp.tsx`. -/
noncomputable def calculateRTP (user : User) (filterType : Option String)
    (dateRange : Option DateRange) (clk : Clock) : RTPResult :=
  let s := rtpState user filterType dateRange clk
  if s.weightedTotalSum = 0 then ⟨0, 0, ⟨some 0, 0, 0, 0⟩⟩
  else
    { percentage := s.weightedCompletedSum / s.weightedTotalSum * 100
      score := round s.weightedCompletedSum
      metrics :=
        { estimationAccuracy :=
            if 0 < s.tasksWithAccurateEstimates then
              some (min 100
                (100 - |(s.totalActualTime - s.totalEstimatedTime) / s.totalEstimatedTime * 100|))
            else none
          completionRate :=
            if 0 < s.totalTasks then (s.completedTasks : ℝ) / (s.totalTasks : ℝ) * 100 else 0
          blockedTasksPercentage :=
            if 0 < s.totalTasks then (s.blockedTasks : ℝ) / (s.totalTasks : ℝ) * 100 else 0
          averageTaskWeight :=
            if 0 < s.totalTasks then s.weightedTotalSum / (s.totalTasks : ℝ) else 0 } }

/-- `Partial<Task>` as consumed by `classifyTask`: every field optional
(only the fields the classifier reads are kept). -/
structure PartialTask where
  name : Option String
  description : Option String
  startDateTime : Option ℝ
  endDateTime : Option ℝ
  subTasks : Option (List SubTask)
  estimatedMinutes : Option ℝ
  blockedBy : Option (List String)
  collaborators : Option (List String)

/-- The `scores` record of `classifyTask`. -/
structure Scores where
  low : ℕ
  mid : ℕ
  high : ℕ

/-- Pointwise addition of score increments. -/
def Scores.add (a b : Scores) : Scores := ⟨a.low + b.low, a.mid + b.mid, a.high + b.high⟩

/-- The three keyword lists of `classifyTask`'s rule 4. -/
def highPriorityKeywords : List String :=
  ["urgent", "critical", "important", "deadline", "priority", "asap", "emergency", "crucial"]

/-- Mid-priority keywords of rule 4. -/
def midPriorityKeywords : List String :=
  ["review", "update", "prepare", "meeting", "report", "develop", "implement", "analyze"]

/-- Low-priority keywords of rule 4. -/
def lowPriorityKeywords : List String :=
  ["check", "read", "reminder", "routine", "daily", "follow-up", "monitor", "maintain"]

/-- `toLowerCase()`: characterwise lowering of the underlying
character list. -/
def lowerStr (s : String) : String := String.mk (s.data.map Char.toLower)

/-- `text.includes(pat)`: substring containment. -/
def includesStr (text pat : String) : Bool := decide (pat.data <:+: text.data)

/-- The seven scoring rules of `classifyTask`, returning the accumulated
`{LOW, MID, HIGH}` scores. -/
noncomputable def classifyScores (task : PartialTask) : Scores :=
  let descriptionLength := (task.description.getD "").length
  let r1 : Scores :=
    if 300 < descriptionLength then ⟨0, 0, 3⟩
    else if 150 < descriptionLength then ⟨0, 0, 2⟩
    else if 80 < descriptionLength then ⟨0, 2, 0⟩
    else ⟨1, 0, 0⟩
  let subtaskCount := (task.subTasks.getD []).length
  let r2 : Scores :=
    if 5 < subtaskCount then ⟨0, 0, 4⟩
    else if 3 < subtaskCount then ⟨0, 0, 3⟩
    else if 0 < subtaskCount then ⟨0, 2, 0⟩
    else ⟨1, 0, 0⟩
  let r3 : Scores :=
    match task.startDateTime, task.endDateTime with
    | some a, some b =>
        let durationHours := (b - a) / 3600000
        if 24 < durationHours then ⟨0, 0, 3⟩
        else if 8 < durationHours then ⟨0, 0, 2⟩
        else if 2 < durationHours then ⟨0, 2, 0⟩
        else ⟨2, 0, 0⟩
    | _, _ => ⟨0, 0, 0⟩
  let text := lowerStr ((task.name.getD "") ++ " " ++ (task.description.getD ""))
  let r4 : Scores :=
    ⟨lowPriorityKeywords.countP (fun kw => includesStr text kw),
     midPriorityKeywords.countP (fun kw => includesStr text kw),
     highPriorityKeywords.countP (fun kw => includesStr text kw)⟩
  let r5 : Scores :=
    if 2 < (task.collaborators.getD []).length then ⟨0, 0, 2⟩
    else if 0 < (task.collaborators.getD []).length then ⟨0, 1, 0⟩
    else ⟨0, 0, 0⟩
  let r6 : Scores := if (task.blockedBy.getD []) ≠ [] then ⟨0, 1, 0⟩ else ⟨0, 0, 0⟩
  let r7 : Scores :=
    if truthyOpt task.estimatedMinutes then
      if 240 < task.estimatedMinutes.getD 0 then ⟨0, 0, 2⟩
      else if 60 < task.estimatedMinutes.getD 0 then ⟨0, 2, 0⟩
      else ⟨1, 0, 0⟩
    else ⟨0, 0, 0⟩
  ((((((r1.add r2).add r3).add r4).add r5).add r6).add r7)

/-- `classifyTask` from `calculate-rtp.tsx`: tier selection by strict
score comparison, then the weighted 1-10 priority
`clamp(round((3H + 2M + L) / (totalScore || 1) * 3), 1, 10)`. -/
noncomputable def classifyTask (task : PartialTask) : String × ℤ :=
  let scores := classifyScores task
  let taskType :=
    if scores.mid < scores.high ∧ scores.low < scores.high then "HIGH"
    else if scores.low < scores.mid then "MID"
    else "LOW"
  let totalScore := scores.low + scores.mid + scores.high
  let weightedScore :=
    ((scores.high * 3 + scores.mid * 2 + scores.low : ℕ) : ℝ) /
      (if totalScore = 0 then 1 else (totalScore : ℝ))
  (taskType, max 1 (min 10 (round (weightedScore * 3))))

/-- Every base weight is at least 1: explicit priorities are 1-10 and the
tier defaults are 2, 5, 8 or 5. -/
theorem one_le_getPriorityWeight (p : Option PriorityScale) (ty : String) :
    1 ≤ getPriorityWeight p ty := by
  unfold getPriorityWeight
  match p with
  | some q =>
      have h1 := q.property.1
      exact_mod_cast Nat.one_le_cast.mpr h1
  | none => split_ifs <;> norm_num

theorem one_le_subtaskWeight (st : SubTask) : 1 ≤ subtaskWeight st :=
  one_le_getPriorityWeight st.priority st.type

theorem weightedCompletion_nonneg (l : List SubTask) : 0 ≤ weightedCompletion l := by
  unfold weightedCompletion
  apply List.sum_nonneg
  intro x hx
  obtain ⟨st, _, rfl⟩ := List.mem_map.mp hx
  exact le_trans zero_le_one (one_le_subtaskWeight st)

theorem length_le_totalSubtaskWeight (l : List SubTask) :
    (l.length : ℝ) ≤ totalSubtaskWeight l := by
  induction l with
  | nil => simp [totalSubtaskWeight]
  | cons st ts ih =>
      have h1 := one_le_subtaskWeight st
      simp only [totalSubtaskWeight, List.map_cons, List.sum_cons, List.length_cons] at *
      push_cast
      linarith

theorem weightedCompletion_le_total (l : List SubTask) :
    weightedCompletion l ≤ totalSubtaskWeight l := by
  induction l with
  | nil => simp [weightedCompletion, totalSubtaskWeight]
  | cons st ts ih =>
      by_cases h : st.completed
      · simp only [weightedCompletion, totalSubtaskWeight, List.filter_cons, h] at *
        simp only [if_pos trivial, List.map_cons, List.sum_cons]
        linarith
      · simp only [weightedCompletion, totalSubtaskWeight, List.filter_cons, h] at *
        simp only [Bool.false_eq_true, if_false, List.map_cons, List.sum_cons]
        have h2 := one_le_subtaskWeight st
        linarith

theorem totalSubtaskWeight_pos (l : List SubTask) (h : l ≠ []) :
    0 < totalSubtaskWeight l := by
  have h1 := length_le_totalSubtaskWeight l
  have h2 : 1 ≤ l.length := List.length_pos.mpr h
  have h3 : (1 : ℝ) ≤ (l.length : ℝ) := by exact_mod_cast h2
  linarith

/-- Bounds on the subtask contribution: the completed weight is a
fraction in `[0,1]` and the parent always contributes total weight 1. -/
theorem calculateSubtaskContribution_bounds (task : Task) :
    0 ≤ (calculateSubtaskContribution task).completedWeight ∧
      (calculateSubtaskContribution task).completedWeight ≤ 1 ∧
      (calculateSubtaskContribution task).totalWeight = 1 := by
  unfold calculateSubtaskContribution
  dsimp only
  split_ifs with h1 h2 h3
  · simp
  · simp
  · refine ⟨div_nonneg (weightedCompletion_nonneg _) (le_of_lt h3), ?_, rfl⟩
    rw [div_le_one h3]
    exact weightedCompletion_le_total _
  · have hlen : 0 < ((task.subTasks.getD []).length : ℝ) := by
      have : 0 < (task.subTasks.getD []).length := Nat.pos_of_ne_zero h1
      exact_mod_cast this
    refine ⟨div_nonneg (by positivity) (le_of_lt hlen), ?_, rfl⟩
    rw [div_le_one hlen]
    have := List.length_filter_le (fun st => st.completed) (task.subTasks.getD [])
    exact_mod_cast this

theorem one_le_complexityFactor (task : Task) : 1 ≤ complexityFactor task := by
  unfold complexityFactor
  dsimp only
  have h10 : (0 : ℝ) ≤ min 10 (((task.subTasks.getD []).length : ℝ)) :=
    le_min (by norm_num) (by positivity)
  have h5 : (0 : ℝ) ≤ min 5 (((task.collaborators.getD []).length : ℝ)) :=
    le_min (by norm_num) (by positivity)
  split_ifs <;> nlinarith

theorem one_le_durationFactor (d : ℝ) : 1 ≤ durationFactor d := le_max_left _ _

/-- The urgency factor is nonnegative whenever the task's duration is
nonnegative (start before deadline) and the task has already started
(the time remaining does not exceed the duration). -/
theorem urgencyFactor_nonneg (tr d : ℝ) (hd : 0 ≤ d) (htr : tr ≤ d) :
    0 ≤ urgencyFactor tr d := by
  unfold urgencyFactor
  split_ifs with h1 h2 h3
  · have h4 : 0 ≤ |tr| / dayMs := div_nonneg (abs_nonneg tr) (by norm_num [dayMs])
    exact le_min (by norm_num) (by linarith)
  · have hd' : 0 < d := lt_of_le_of_ne hd (Ne.symm h2)
    have h4 : 0 ≤ |tr| / d := div_nonneg (abs_nonneg tr) hd
    exact le_min (by norm_num) (by linarith)
  · have hq : tr / d ≤ 1 := (div_le_one h3.2).mpr htr
    have hdf : 1 ≤ durationFactor d := one_le_durationFactor d
    nlinarith
  · norm_num

/-- The preference-weighted average is nonnegative for nonnegative
preference ratios with positive sum, provided the task's dates are not
degenerate (start before deadline, task already started). -/
theorem dynamicWeightBase_nonneg (task : Task) (user : User) (clk : Clock)
    (hp : 0 ≤ (effectivePreferences user).deadline ∧ 0 ≤ (effectivePreferences user).priority ∧
      0 ≤ (effectivePreferences user).complexity)
    (hs : 0 < (effectivePreferences user).priority + (effectivePreferences user).deadline +
      (effectivePreferences user).complexity)
    (hd : task.startDateTime ≤ task.endDateTime) (hn : task.startDateTime ≤ clk.t) :
    0 ≤ dynamicWeightBase task user clk := by
  unfold dynamicWeightBase
  dsimp only
  have hb : 1 ≤ getPriorityWeight task.priority task.type := one_le_getPriorityWeight _ _
  have hu : 0 ≤ urgencyFactor (task.endDateTime - clk.t) (task.endDateTime - task.startDateTime) :=
    urgencyFactor_nonneg _ _ (by linarith) (by linarith)
  have hc : 1 ≤ complexityFactor task := one_le_complexityFactor task
  obtain ⟨hpd, hpp, hpc⟩ := hp
  apply div_nonneg _ (le_of_lt hs)
  have h1 : 0 ≤ getPriorityWeight task.priority task.type * (effectivePreferences user).priority :=
    mul_nonneg (by linarith) hpp
  have h2 : 0 ≤ getPriorityWeight task.priority task.type * urgencyFactor _ _ *
      (effectivePreferences user).deadline := mul_nonneg (mul_nonneg (by linarith) hu) hpd
  have h3 : 0 ≤ getPriorityWeight task.priority task.type * complexityFactor task *
      (effectivePreferences user).complexity := mul_nonneg (mul_nonneg (by linarith) (by linarith)) hpc
  linarith

theorem dynamicWeightPre_nonneg (task : Task) (user : User) (clk : Clock)
    (hp : 0 ≤ (effectivePreferences user).deadline ∧ 0 ≤ (effectivePreferences user).priority ∧
      0 ≤ (effectivePreferences user).complexity)
    (hs : 0 < (effectivePreferences user).priority + (effectivePreferences user).deadline +
      (effectivePreferences user).complexity)
    (hd : task.startDateTime ≤ task.endDateTime) (hn : task.startDateTime ≤ clk.t) :
    0 ≤ dynamicWeightPre task user clk := by
  unfold dynamicWeightPre
  have h := dynamicWeightBase_nonneg task user clk hp hs hd hn
  split_ifs <;> nlinarith

theorem calculateDynamicWeight_nonneg (task : Task) (user : User) (clk : Clock)
    (hp : 0 ≤ (effectivePreferences user).deadline ∧ 0 ≤ (effectivePreferences user).priority ∧
      0 ≤ (effectivePreferences user).complexity)
    (hs : 0 < (effectivePreferences user).priority + (effectivePreferences user).deadline +
      (effectivePreferences user).complexity)
    (hd : task.startDateTime ≤ task.endDateTime) (hn : task.startDateTime ≤ clk.t) :
    0 ≤ calculateDynamicWeight task user clk := by
  unfold calculateDynamicWeight
  have h := dynamicWeightPre_nonneg task user clk hp hs hd hn
  match declaredCapacity user with
  | some c =>
      dsimp only
      split_ifs
      · exact Real.rpow_nonneg h _
      · exact h
  | none => exact h

/-- Weighted-sum contribution of a processed task to the completed sum. -/
noncomputable def taskCompletedContrib (user : User) (clk : Clock) (task : Task) : ℝ :=
  if 0 < (task.subTasks.getD []).length then
    calculateDynamicWeight task user clk * (calculateSubtaskContribution task).completedWeight
  else if task.completed then calculateDynamicWeight task user clk else 0

/-- Weighted-sum contribution of a processed task to the total sum. -/
noncomputable def taskTotalContrib (user : User) (clk : Clock) (task : Task) : ℝ :=
  if 0 < (task.subTasks.getD []).length then
    calculateDynamicWeight task user clk * (calculateSubtaskContribution task).totalWeight
  else calculateDynamicWeight task user clk

theorem taskContrib_bounds (task : Task) (user : User) (clk : Clock)
    (hw : 0 ≤ calculateDynamicWeight task user clk) :
    0 ≤ taskCompletedContrib user clk task ∧
      taskCompletedContrib user clk task ≤ taskTotalContrib user clk task := by
  unfold taskCompletedContrib taskTotalContrib
  obtain ⟨hc0, hc1, htw⟩ := calculateSubtaskContribution_bounds task
  split_ifs with h1 h2
  · constructor
    · exact mul_nonneg hw hc0
    · rw [htw, mul_one]
      nlinarith
  · exact ⟨hw, le_refl _⟩
  · exact ⟨le_refl _, hw⟩

theorem processTask_totalTasks (user : User) (clk : Clock) (ft : Option String)
    (s : RTPState) (task : Task) :
    (processTask user clk ft s task).totalTasks = s.totalTasks + 1 := by
  unfold processTask
  dsimp only
  split_ifs <;> rfl

theorem processTask_blockedTasks (user : User) (clk : Clock) (ft : Option String)
    (s : RTPState) (task : Task) :
    (processTask user clk ft s task).blockedTasks =
      s.blockedTasks +
        (if filterMismatch ft task.type then 0
         else if (task.blockedBy.getD []) ≠ [] then 1 else 0) := by
  unfold processTask
  dsimp only
  split_ifs <;> simp

theorem processTask_accurate (user : User) (clk : Clock) (ft : Option String)
    (s : RTPState) (task : Task) :
    (processTask user clk ft s task).tasksWithAccurateEstimates =
      s.tasksWithAccurateEstimates +
        (if filterMismatch ft task.type then 0
         else if truthyOpt task.estimatedMinutes ∧ truthyOpt task.actualMinutes then 1 else 0) := by
  unfold processTask
  dsimp only
  split_ifs <;> simp_all

theorem processTask_completedTasks (user : User) (clk : Clock) (ft : Option String)
    (s : RTPState) (task : Task) :
    (processTask user clk ft s task).completedTasks =
      s.completedTasks +
        (if filterMismatch ft task.type then 0
         else if 0 < (task.subTasks.getD []).length then
           (if (calculateSubtaskContribution task).completedSubtasks =
               (task.subTasks.getD []).length ∧ task.completed = true then 1 else 0)
         else (if task.completed = true then 1 else 0)) := by
  unfold processTask
  dsimp only
  split_ifs <;> simp_all

theorem processTask_weightedSums (user : User) (clk : Clock) (ft : Option String)
    (s : RTPState) (task : Task) :
    (processTask user clk ft s task).weightedCompletedSum =
        s.weightedCompletedSum +
          (if filterMismatch ft task.type then 0 else taskCompletedContrib user clk task) ∧
      (processTask user clk ft s task).weightedTotalSum =
        s.weightedTotalSum +
          (if filterMismatch ft task.type then 0 else taskTotalContrib user clk task) := by
  unfold processTask taskCompletedContrib taskTotalContrib
  dsimp only
  split_ifs <;> simp_all

theorem foldl_totalTasks (user : User) (clk : Clock) (ft : Option String)
    (l : List Task) (s : RTPState) :
    (l.foldl (processTask user clk ft) s).totalTasks = s.totalTasks + l.length := by
  induction l generalizing s with
  | nil => simp
  | cons t ts ih =>
      rw [List.foldl_cons, ih, processTask_totalTasks, List.length_cons]
      omega

theorem foldl_blockedTasks (user : User) (clk : Clock) (ft : Option String)
    (l : List Task) (s : RTPState) :
    (l.foldl (processTask user clk ft) s).blockedTasks =
      s.blockedTasks +
        l.countP (fun t => !(filterMismatch ft t.type) && !(t.blockedBy.getD []).isEmpty) := by
  induction l generalizing s with
  | nil => simp
  | cons t ts ih =>
      rw [List.foldl_cons, ih, processTask_blockedTasks, List.countP_cons]
      by_cases h1 : filterMismatch ft t.type
      · simp [h1]
      · by_cases h2 : (t.blockedBy.getD []) = [] <;>
          simp [h1, h2, List.isEmpty_iff] <;> omega

theorem foldl_accurate (user : User) (clk : Clock) (ft : Option String)
    (l : List Task) (s : RTPState) :
    (l.foldl (processTask user clk ft) s).tasksWithAccurateEstimates =
      s.tasksWithAccurateEstimates +
        l.countP (fun t => !(filterMismatch ft t.type) &&
          decide (truthyOpt t.estimatedMinutes) && decide (truthyOpt t.actualMinutes)) := by
  induction l generalizing s with
  | nil => simp
  | cons t ts ih =>
      rw [List.foldl_cons, ih, processTask_accurate, List.countP_cons]
      by_cases h1 : filterMismatch ft t.type
      · simp [h1]
      · by_cases h2 : truthyOpt t.estimatedMinutes <;>
          by_cases h3 : truthyOpt t.actualMinutes <;> simp [h1, h2, h3] <;> omega

/-- Sum characterization of the two weighted accumulators. -/
theorem foldl_weightedSums (user : User) (clk : Clock) (ft : Option String)
    (l : List Task) (s : RTPState) :
    (l.foldl (processTask user clk ft) s).weightedCompletedSum =
        s.weightedCompletedSum +
          (l.map (fun t => if filterMismatch ft t.type then 0
            else taskCompletedContrib user clk t)).sum ∧
      (l.foldl (processTask user clk ft) s).weightedTotalSum =
        s.weightedTotalSum +
          (l.map (fun t => if filterMismatch ft t.type then 0
            else taskTotalContrib user clk t)).sum := by
  induction l generalizing s with
  | nil => simp
  | cons t ts ih =>
      rw [List.foldl_cons]
      obtain ⟨ih1, ih2⟩ := ih (processTask user clk ft s t)
      obtain ⟨h1, h2⟩ := processTask_weightedSums user clk ft s t
      rw [List.map_cons, List.sum_cons, List.map_cons, List.sum_cons]
      constructor
      · rw [ih1, h1]; ring
      · rw [ih2, h2]; ring

theorem calculateSubtaskContribution_count (task : Task)
    (h : (task.subTasks.getD []) ≠ []) :
    (calculateSubtaskContribution task).completedSubtasks =
      ((task.subTasks.getD []).filter (fun st => st.completed)).length := by
  unfold calculateSubtaskContribution
  dsimp only
  rw [if_neg (fun h1 => h (List.length_eq_zero.mp h1))]
  split_ifs <;> rfl

/-- The claim-level completion predicate of the completion-rate metric: a
task counts as completed when it has no subtasks and is itself completed,
or has subtasks, all of them completed, and is itself completed. -/
def completedForRate (task : Task) : Bool :=
  ((task.subTasks.getD []).isEmpty && task.completed) ||
    (!(task.subTasks.getD []).isEmpty &&
      (task.subTasks.getD []).all (fun st => st.completed) && task.completed)

theorem processTask_completedTasks_count (user : User) (clk : Clock) (ft : Option String)
    (s : RTPState) (task : Task) :
    (processTask user clk ft s task).completedTasks =
      s.completedTasks +
        (if !(filterMismatch ft task.type) && completedForRate task then 1 else 0) := by
  rw [processTask_completedTasks]
  by_cases h1 : filterMismatch ft task.type
  · simp [h1]
  · by_cases h2 : (task.subTasks.getD []) = []
    · simp only [h1, Bool.not_true, if_neg, Bool.false_and]
      by_cases h3 : task.completed <;>
        simp [completedForRate, h1, h2, h3, List.isEmpty_iff]
    · have hlen : 0 < (task.subTasks.getD []).length := List.length_pos.mpr h2
      have hcount := calculateSubtaskContribution_count task h2
      by_cases h3 : task.completed
      · by_cases h4 : (task.subTasks.getD []).all (fun st => st.completed)
        · have hall : ∀ st ∈ task.subTasks.getD [], st.completed = true :=
            List.all_eq_true.mp h4
          have hfl : ((task.subTasks.getD []).filter (fun st => st.completed)).length =
              (task.subTasks.getD []).length := by
            rw [List.filter_length_eq_length]
            exact hall
          simp [h1, hlen, hcount, hfl, h3, completedForRate, h2, h4, List.isEmpty_iff]
        · have hne : ((task.subTasks.getD []).filter (fun st => st.completed)).length ≠
              (task.subTasks.getD []).length := by
            intro he
            exact h4 (List.all_eq_true.mpr (List.filter_length_eq_length.mp he))
          simp [h1, hlen, hcount, hne, completedForRate, h2, h4, List.isEmpty_iff]
      · simp [h1, hlen, h3, completedForRate, h2, List.isEmpty_iff]

theorem foldl_completedTasks (user : User) (clk : Clock) (ft : Option String)
    (l : List Task) (s : RTPState) :
    (l.foldl (processTask user clk ft) s).completedTasks =
      s.completedTasks +
        l.countP (fun t => !(filterMismatch ft t.type) && completedForRate t) := by
  induction l generalizing s with
  | nil => simp
  | cons t ts ih =>
      rw [List.foldl_cons, ih, processTask_completedTasks_count, List.countP_cons]
      by_cases h : !(filterMismatch ft t.type) && completedForRate t <;> simp [h] <;> omega

/-- A plain task used to build concrete scenarios: one-shot, MID tier,
no optional extras, start 0, deadline 100. -/
noncomputable def baseTask : Task :=
  { name := "t", description := "", startDateTime := 0, endDateTime := 100,
    completed := false, type := "MID", priority := none, subTasks := none,
    estimatedMinutes := none, actualMinutes := none, blockedBy := none,
    collaborators := none }

/-- A concrete clock: now = 100 ms, local hour 0. -/
noncomputable def clk0 : Clock := ⟨100, 0, 1000, 2000⟩

noncomputable def lowBlockedTask : Task :=
  { baseTask with type := "LOW", blockedBy := some ["x"] }

noncomputable def userC3 : User := ⟨"u", [lowBlockedTask], none⟩

/-- C3 counterexample: with tier filter HIGH, a LOW task with a nonempty
`blockedBy` list is counted in `totalTasks` but NOT in the blocked-task
count — the source increments `blockedTasks` only after the filter check,
so the claim's "both counts happen before the filter check" is false. -/
theorem c3_blocked_after_filter_cex :
    (rtpState userC3 (some "HIGH") none clk0).totalTasks = 1 ∧
      (rtpState userC3 (some "HIGH") none clk0).blockedTasks = 0 := by
  constructor
  · rw [rtpState, foldl_totalTasks]
    simp [initialRTPState, dateFiltered, userC3]
  · rw [rtpState, foldl_blockedTasks]
    simp [initialRTPState, dateFiltered, userC3, lowBlockedTask, baseTask, filterMismatch]

/-- C3 amended: after the date filter, every task is counted in
`totalTasks` (the count precedes the tier check), while the blocked-task
count includes exactly the tasks that pass the tier filter and have a
nonempty `blockedBy` list (the count follows the tier check). -/
theorem c3_count_then_skip (user : User) (ft : String) (dr : Option DateRange) (clk : Clock) :
    (rtpState user (some ft) dr clk).totalTasks = (dateFiltered user dr).length ∧
      (rtpState user (some ft) dr clk).blockedTasks =
        (dateFiltered user dr).countP
          (fun t => !(filterMismatch (some ft) t.type) && !(t.blockedBy.getD []).isEmpty) := by
  constructor
  · rw [rtpState, foldl_totalTasks]; simp [initialRTPState]
  · rw [rtpState, foldl_blockedTasks]; simp [initialRTPState]

noncomputable def boundaryTask : Task := { baseTask with startDateTime := 50 }

noncomputable def userC4 : User := ⟨"u", [boundaryTask], none⟩

/-- C4 counterexample: with `dateRange = [0, 50]`, a task whose start
timestamp equals `dateRange.end` IS processed (counted in `totalTasks`),
refuting the half-open-interval reading. -/
theorem c4_boundary_included_cex :
    (rtpState userC4 none (some ⟨0, 50⟩) clk0).totalTasks = 1 := by
  rw [rtpState, foldl_totalTasks]
  simp [initialRTPState, dateFiltered, userC4, boundaryTask, baseTask, List.filter_cons]

/-- C4 amended: the date filter keeps exactly the tasks whose start
timestamp lies in the CLOSED interval `[dateRange.start, dateRange.end]`
— both endpoints included. -/
theorem c4_closed_interval (user : User) (ft : Option String) (r : DateRange) (clk : Clock) :
    (rtpState user ft (some r) clk).totalTasks =
      user.tasks.countP
        (fun t => decide (r.rstart ≤ t.startDateTime) && decide (t.startDateTime ≤ r.rend)) := by
  rw [rtpState, foldl_totalTasks]
  simp [initialRTPState, dateFiltered, List.countP_eq_length_filter]

/-- C5: a processed task increments `completedTasks` exactly when it has
no subtasks and is completed, or has subtasks, all subtasks completed,
and its own completed flag also true (`completedForRate`); in particular
an incomplete task is never counted even if all its subtasks are
completed. -/
theorem c5_completed_task_characterization (user : User) (ft : Option String)
    (dr : Option DateRange) (clk : Clock) :
    (rtpState user ft dr clk).completedTasks =
        (dateFiltered user dr).countP
          (fun t => !(filterMismatch ft t.type) && completedForRate t) ∧
      ∀ t : Task, t.completed = false → completedForRate t = false := by
  constructor
  · rw [rtpState, foldl_completedTasks]; simp [initialRTPState]
  · intro t ht
    simp [completedForRate, ht]

/-- C10: every subtask's base weight is at least 1, so the total subtask
weight of a task with subtasks is strictly positive, the unweighted-ratio
fallback is unreachable, and the completed weight is the weighted
completion ratio, a value in `[0,1]`. -/
theorem c10_subtask_weighted_ratio (task : Task) (l : List SubTask)
    (hsub : task.subTasks = some l) (hne : l ≠ []) :
    (∀ st ∈ l, 1 ≤ subtaskWeight st) ∧
      0 < totalSubtaskWeight l ∧
      (calculateSubtaskContribution task).completedWeight =
        weightedCompletion l / totalSubtaskWeight l ∧
      0 ≤ (calculateSubtaskContribution task).completedWeight ∧
      (calculateSubtaskContribution task).completedWeight ≤ 1 := by
  have hget : task.subTasks.getD [] = l := by rw [hsub]; rfl
  have hpos := totalSubtaskWeight_pos l hne
  refine ⟨fun st _ => one_le_subtaskWeight st, hpos, ?_,
    (calculateSubtaskContribution_bounds task).1,
    (calculateSubtaskContribution_bounds task).2.1⟩
  unfold calculateSubtaskContribution
  dsimp only
  rw [hget, if_neg (fun h0 => hne (List.length_eq_zero.mp h0)), if_pos hpos]

noncomputable def subC10 : SubTask :=
  { name := "s", description := "", startDateTime := 0, endDateTime := 100,
    completed := true, type := "MID", priority := none, estimatedMinutes := none,
    actualMinutes := none, blockedBy := none }

noncomputable def taskC10 : Task := { baseTask with subTasks := some [subC10] }

theorem c10_subtask_weighted_ratio_witness :
    taskC10.subTasks = some [subC10] ∧ ([subC10] : List SubTask) ≠ [] ∧
      0 < totalSubtaskWeight [subC10] ∧
      (calculateSubtaskContribution taskC10).completedWeight =
        weightedCompletion [subC10] / totalSubtaskWeight [subC10] :=
  ⟨rfl, by simp,
    (c10_subtask_weighted_ratio taskC10 [subC10] rfl (by simp)).2.1,
    (c10_subtask_weighted_ratio taskC10 [subC10] rfl (by simp)).2.2.1⟩

/-- The spec's overdue urgency formula: `min(3, 1 + |timeOverdue| /
totalDuration)` with a one-day denominator substituted when the total
duration is zero. -/
noncomputable def overdueUrgencySpec (timeOverdue totalDuration : ℝ) : ℝ :=
  min 3 (1 + |timeOverdue| / (if totalDuration = 0 then dayMs else totalDuration))

/-- C7: for every overdue task (deadline strictly before the evaluation
time), the urgency factor used in `calculateDynamicWeight` equals the
spec's overdue formula, and is at most 3 no matter how overdue the task
is. -/
theorem c7_overdue_urgency (task : Task) (clk : Clock) (h : task.endDateTime < clk.t) :
    urgencyFactor (task.endDateTime - clk.t) (task.endDateTime - task.startDateTime) =
        overdueUrgencySpec (clk.t - task.endDateTime)
          (task.endDateTime - task.startDateTime) ∧
      urgencyFactor (task.endDateTime - clk.t) (task.endDateTime - task.startDateTime) ≤ 3 := by
  have htr : task.endDateTime - clk.t < 0 := by linarith
  constructor
  · unfold urgencyFactor overdueUrgencySpec
    rw [if_pos htr, abs_sub_comm]
  · unfold urgencyFactor
    rw [if_pos htr]
    exact min_le_left _ _

noncomputable def overdueTask : Task := { baseTask with endDateTime := 80 }

theorem c7_overdue_urgency_witness :
    overdueTask.endDateTime < clk0.t ∧
      urgencyFactor (overdueTask.endDateTime - clk0.t)
          (overdueTask.endDateTime - overdueTask.startDateTime) =
        overdueUrgencySpec (clk0.t - overdueTask.endDateTime)
          (overdueTask.endDateTime - overdueTask.startDateTime) :=
  ⟨by norm_num [overdueTask, baseTask, clk0],
    (c7_overdue_urgency overdueTask clk0 (by norm_num [overdueTask, baseTask, clk0])).1⟩

theorem gpw_low : getPriorityWeight none "LOW" = 2 := by
  unfold getPriorityWeight
  rw [if_pos rfl]

theorem gpw_mid : getPriorityWeight none "MID" = 5 := by
  unfold getPriorityWeight
  rw [if_neg (by decide), if_pos rfl]

theorem gpw_high : getPriorityWeight none "HIGH" = 8 := by
  unfold getPriorityWeight
  rw [if_neg (by decide), if_neg (by decide), if_pos rfl]

theorem gpw_some (p : PriorityScale) (ty : String) :
    getPriorityWeight (some p) ty = (p.val : ℝ) := rfl

noncomputable def sevenTasks : List Task :=
  [baseTask, baseTask, baseTask, baseTask, baseTask, baseTask, baseTask]

/-- Seven incomplete tasks due before "tomorrow end", no declared
capacity: the analyzer reports overload against the default capacity 5. -/
noncomputable def userC2 : User := ⟨"u", sevenTasks, none⟩

/-- C2 counterexample: the workload analyzer reports
`overloadFactor = 7/5 > 1` for a user who never declared a capacity, yet
`calculateDynamicWeight` does NOT apply the power-1.2 adjustment (the
step is gated on a truthy declared capacity). -/
theorem c2_overload_without_capacity_cex :
    1 < (calculateWorkloadMetrics userC2 clk0).overloadFactor ∧
      calculateDynamicWeight baseTask userC2 clk0 ≠
        dynamicWeightPre baseTask userC2 clk0 ^ (1.2 : ℝ) := by
  constructor
  · norm_num [calculateWorkloadMetrics, declaredCapacity, userC2, sevenTasks, baseTask,
      List.filter_cons, clk0]
  · have h1 : calculateDynamicWeight baseTask userC2 clk0 =
        dynamicWeightPre baseTask userC2 clk0 := by
      unfold calculateDynamicWeight declaredCapacity userC2
      rfl
    have h2 : dynamicWeightPre baseTask userC2 clk0 = 5 := by
      norm_num [dynamicWeightPre, inProductiveHour, userC2, dynamicWeightBase,
        effectivePreferences, defaultPreferences, gpw_mid, urgencyFactor,
        complexityFactor, baseTask, clk0, declaredCapacity]
    rw [h1, h2]
    have h3 : (5 : ℝ) ^ (1 : ℝ) < (5 : ℝ) ^ (1.2 : ℝ) :=
      Real.rpow_lt_rpow_of_exponent_lt (by norm_num) (by norm_num)
    rw [Real.rpow_one] at h3
    exact ne_of_lt h3

/-- C2 amended: when the user HAS declared a nonzero workload capacity
and the workload analyzer reports an overload factor above 1,
`calculateDynamicWeight` applies the power-1.2 adjustment for every task
of that user. -/
theorem c2_overload_power_adjustment (user : User) (task : Task) (clk : Clock) (c : ℝ)
    (hc : declaredCapacity user = some c) (hc0 : c ≠ 0)
    (hov : 1 < (calculateWorkloadMetrics user clk).overloadFactor) :
    calculateDynamicWeight task user clk = dynamicWeightPre task user clk ^ (1.2 : ℝ) := by
  unfold calculateDynamicWeight
  rw [hc]
  dsimp only
  rw [if_pos ⟨hc0, hov⟩]

/-- The overloaded user again, this time with declared capacity 5. -/
noncomputable def userC2w : User := ⟨"u", sevenTasks, some ⟨none, none, some 5, none⟩⟩

theorem c2_overload_power_adjustment_witness :
    declaredCapacity userC2w = some 5 ∧ (5 : ℝ) ≠ 0 ∧
      1 < (calculateWorkloadMetrics userC2w clk0).overloadFactor ∧
      calculateDynamicWeight baseTask userC2w clk0 =
        dynamicWeightPre baseTask userC2w clk0 ^ (1.2 : ℝ) := by
  have hov : 1 < (calculateWorkloadMetrics userC2w clk0).overloadFactor := by
    norm_num [calculateWorkloadMetrics, declaredCapacity, userC2w, sevenTasks, baseTask,
      List.filter_cons, clk0]
  exact ⟨rfl, by norm_num, hov,
    c2_overload_power_adjustment userC2w baseTask clk0 5 rfl (by norm_num) hov⟩

/-- A user with no preferences at all (all defaults apply). -/
noncomputable def userPlain : User := ⟨"u", [], none⟩

/-- An overdue task with an inverted date range (start after deadline)
and an explicit priority. -/
noncomputable def invTask (p : PriorityScale) : Task :=
  { baseTask with startDateTime := 85, endDateTime := 80, priority := some p }

theorem invTask_weight (p : PriorityScale) :
    calculateDynamicWeight (invTask p) userPlain clk0 = (p.val : ℝ) * (-0.6) := by
  have h1 : calculateDynamicWeight (invTask p) userPlain clk0 =
      dynamicWeightBase (invTask p) userPlain clk0 := rfl
  rw [h1]
  unfold dynamicWeightBase
  norm_num [invTask, baseTask, userPlain, effectivePreferences, defaultPreferences,
    gpw_some, urgencyFactor, complexityFactor, clk0, min_def, dayMs]
  ring

/-- C8 counterexample: for an overdue task with an inverted date range,
raising the explicit priority from 1 to 2 strictly DECREASES the dynamic
weight (the urgency factor is negative there, so the weight is a negative
multiple of the base priority weight). -/
theorem c8_priority_monotonicity_cex :
    calculateDynamicWeight (invTask ⟨2, by norm_num⟩) userPlain clk0 <
      calculateDynamicWeight (invTask ⟨1, by norm_num⟩) userPlain clk0 := by
  rw [invTask_weight, invTask_weight]
  norm_num

/-- The priority-independent factor of the preference-weighted average. -/
noncomputable def weightKappa (task : Task) (user : User) (clk : Clock) : ℝ :=
  ((effectivePreferences user).priority +
      urgencyFactor (task.endDateTime - clk.t) (task.endDateTime - task.startDateTime) *
        (effectivePreferences user).deadline +
      complexityFactor task * (effectivePreferences user).complexity) /
    ((effectivePreferences user).priority + (effectivePreferences user).deadline +
      (effectivePreferences user).complexity)

theorem dynamicWeightBase_eq_kappa (task : Task) (user : User) (clk : Clock) :
    dynamicWeightBase task user clk =
      getPriorityWeight task.priority task.type * weightKappa task user clk := by
  unfold dynamicWeightBase weightKappa
  ring

theorem weightKappa_nonneg (task : Task) (user : User) (clk : Clock)
    (hp : 0 ≤ (effectivePreferences user).deadline ∧ 0 ≤ (effectivePreferences user).priority ∧
      0 ≤ (effectivePreferences user).complexity)
    (hs : 0 < (effectivePreferences user).priority + (effectivePreferences user).deadline +
      (effectivePreferences user).complexity)
    (hd : task.startDateTime ≤ task.endDateTime) (hn : task.startDateTime ≤ clk.t) :
    0 ≤ weightKappa task user clk := by
  obtain ⟨hpd, hpp, hpc⟩ := hp
  have hu : 0 ≤ urgencyFactor (task.endDateTime - clk.t)
      (task.endDateTime - task.startDateTime) :=
    urgencyFactor_nonneg _ _ (by linarith) (by linarith)
  have hc : 1 ≤ complexityFactor task := one_le_complexityFactor task
  unfold weightKappa
  apply div_nonneg _ (le_of_lt hs)
  have h2 : 0 ≤ urgencyFactor (task.endDateTime - clk.t)
      (task.endDateTime - task.startDateTime) * (effectivePreferences user).deadline :=
    mul_nonneg hu hpd
  have h3 : 0 ≤ complexityFactor task * (effectivePreferences user).complexity :=
    mul_nonneg (by linarith) hpc
  linarith

/-- C8 amended: for a task with a non-degenerate date range (start before
deadline, already started at the evaluation time) and nonnegative
preference ratios with positive sum, increasing the explicit 1-10
priority while holding everything else fixed never decreases
`calculateDynamicWeight`. -/
theorem c8_priority_monotone (task : Task) (user : User) (clk : Clock) (p q : PriorityScale)
    (hpq : p.val ≤ q.val)
    (hp : 0 ≤ (effectivePreferences user).deadline ∧ 0 ≤ (effectivePreferences user).priority ∧
      0 ≤ (effectivePreferences user).complexity)
    (hs : 0 < (effectivePreferences user).priority + (effectivePreferences user).deadline +
      (effectivePreferences user).complexity)
    (hd : task.startDateTime ≤ task.endDateTime) (hn : task.startDateTime ≤ clk.t) :
    calculateDynamicWeight { task with priority := some p } user clk ≤
      calculateDynamicWeight { task with priority := some q } user clk := by
  have hbase : getPriorityWeight (some p) task.type ≤ getPriorityWeight (some q) task.type := by
    rw [gpw_some, gpw_some]
    exact_mod_cast hpq
  have hk : 0 ≤ weightKappa task user clk := weightKappa_nonneg task user clk hp hs hd hn
  have hbased : dynamicWeightBase { task with priority := some p } user clk ≤
      dynamicWeightBase { task with priority := some q } user clk := by
    rw [show dynamicWeightBase { task with priority := some p } user clk =
        getPriorityWeight (some p) task.type * weightKappa task user clk from
      dynamicWeightBase_eq_kappa _ user clk]
    rw [show dynamicWeightBase { task with priority := some q } user clk =
        getPriorityWeight (some q) task.type * weightKappa task user clk from
      dynamicWeightBase_eq_kappa _ user clk]
    exact mul_le_mul_of_nonneg_right hbase hk
  have hpre : dynamicWeightPre { task with priority := some p } user clk ≤
      dynamicWeightPre { task with priority := some q } user clk := by
    unfold dynamicWeightPre
    split_ifs
    · nlinarith
    · exact hbased
  have hpre0 : 0 ≤ dynamicWeightPre { task with priority := some p } user clk :=
    dynamicWeightPre_nonneg _ user clk hp hs hd hn
  unfold calculateDynamicWeight
  cases hcap : declaredCapacity user with
  | none => exact hpre
  | some c =>
      dsimp only
      split_ifs
      · exact Real.rpow_le_rpow hpre0 hpre (by norm_num)
      · exact hpre

theorem c8_priority_monotone_witness :
    (3 : ℕ) ≤ 7 ∧
      (0 ≤ (effectivePreferences userPlain).deadline ∧
        0 ≤ (effectivePreferences userPlain).priority ∧
        0 ≤ (effectivePreferences userPlain).complexity) ∧
      (0 < (effectivePreferences userPlain).priority + (effectivePreferences userPlain).deadline +
        (effectivePreferences userPlain).complexity) ∧
      baseTask.startDateTime ≤ baseTask.endDateTime ∧ baseTask.startDateTime ≤ clk0.t ∧
      calculateDynamicWeight { baseTask with priority := some ⟨3, by norm_num⟩ } userPlain clk0 ≤
        calculateDynamicWeight { baseTask with priority := some ⟨7, by norm_num⟩ } userPlain clk0 := by
  refine ⟨by norm_num, ?_, ?_, ?_, ?_, ?_⟩
  · norm_num [effectivePreferences, userPlain, defaultPreferences]
  · norm_num [effectivePreferences, userPlain, defaultPreferences]
  · norm_num [baseTask]
  · norm_num [baseTask, clk0]
  · exact c8_priority_monotone baseTask userPlain clk0 ⟨3, by norm_num⟩ ⟨7, by norm_num⟩
      (by norm_num)
      (by norm_num [effectivePreferences, userPlain, defaultPreferences])
      (by norm_num [effectivePreferences, userPlain, defaultPreferences])
      (by norm_num [baseTask]) (by norm_num [baseTask, clk0])

theorem foldl_sums_nonneg (user : User) (clk : Clock) (ft : Option String) (l : List Task)
    (hl : ∀ t ∈ l, 0 ≤ calculateDynamicWeight t user clk) (s : RTPState)
    (h0 : 0 ≤ s.weightedCompletedSum) (h1 : s.weightedCompletedSum ≤ s.weightedTotalSum) :
    0 ≤ (l.foldl (processTask user clk ft) s).weightedCompletedSum ∧
      (l.foldl (processTask user clk ft) s).weightedCompletedSum ≤
        (l.foldl (processTask user clk ft) s).weightedTotalSum := by
  obtain ⟨e1, e2⟩ := foldl_weightedSums user clk ft l s
  rw [e1, e2]
  have hc : 0 ≤ (l.map (fun t => if filterMismatch ft t.type then 0
      else taskCompletedContrib user clk t)).sum := by
    apply List.sum_nonneg
    intro x hx
    obtain ⟨t, ht, rfl⟩ := List.mem_map.mp hx
    by_cases h : filterMismatch ft t.type
    · simp [h]
    · simp only [h, Bool.false_eq_true, if_false]
      exact (taskContrib_bounds t user clk (hl t ht)).1
  have hle : (l.map (fun t => if filterMismatch ft t.type then 0
      else taskCompletedContrib user clk t)).sum ≤
      (l.map (fun t => if filterMismatch ft t.type then 0
        else taskTotalContrib user clk t)).sum := by
    apply List.sum_le_sum
    intro t ht
    by_cases h : filterMismatch ft t.type
    · simp [h]
    · simp only [h, Bool.false_eq_true, if_false]
      exact (taskContrib_bounds t user clk (hl t ht)).2
  exact ⟨by linarith, by linarith⟩

/-- C1 amended: for nonnegative preference ratios with positive sum AND
tasks whose dates are non-degenerate (start at most deadline, start at
most the evaluation time), a nonzero `weightedTotalSum` yields a
percentage within `[0,100]`. -/
theorem c1_percentage_bounds (user : User) (ft : Option String) (dr : Option DateRange)
    (clk : Clock)
    (hp : 0 ≤ (effectivePreferences user).deadline ∧ 0 ≤ (effectivePreferences user).priority ∧
      0 ≤ (effectivePreferences user).complexity)
    (hs : 0 < (effectivePreferences user).priority + (effectivePreferences user).deadline +
      (effectivePreferences user).complexity)
    (hdates : ∀ t ∈ user.tasks, t.startDateTime ≤ t.endDateTime ∧ t.startDateTime ≤ clk.t)
    (hnz : (rtpState user ft dr clk).weightedTotalSum ≠ 0) :
    0 ≤ (calculateRTP user ft dr clk).percentage ∧
      (calculateRTP user ft dr clk).percentage ≤ 100 := by
  have hmem : ∀ t ∈ dateFiltered user dr, t ∈ user.tasks := by
    intro t ht
    cases dr with
    | none => exact ht
    | some r => exact (List.mem_filter.mp ht).1
  have hw : ∀ t ∈ dateFiltered user dr, 0 ≤ calculateDynamicWeight t user clk := fun t ht =>
    calculateDynamicWeight_nonneg t user clk hp hs (hdates t (hmem t ht)).1
      (hdates t (hmem t ht)).2
  have hinv := foldl_sums_nonneg user clk ft (dateFiltered user dr) hw initialRTPState
    (le_refl 0) (le_refl 0)
  rw [show (dateFiltered user dr).foldl (processTask user clk ft) initialRTPState =
      rtpState user ft dr clk from rfl] at hinv
  have hTpos : 0 < (rtpState user ft dr clk).weightedTotalSum :=
    lt_of_le_of_ne (le_trans hinv.1 hinv.2) (Ne.symm hnz)
  unfold calculateRTP
  rw [if_neg hnz]
  dsimp only
  constructor
  · exact mul_nonneg (div_nonneg hinv.1 (le_of_lt hTpos)) (by norm_num)
  · have hq : (rtpState user ft dr clk).weightedCompletedSum /
        (rtpState user ft dr clk).weightedTotalSum ≤ 1 := (div_le_one hTpos).mpr hinv.2
    nlinarith

/-- A completed HIGH task whose deadline is exactly the evaluation time. -/
noncomputable def taskC1a : Task := { baseTask with type := "HIGH", completed := true }

/-- An incomplete, overdue HIGH task with an inverted date range. -/
noncomputable def taskC1b : Task :=
  { baseTask with type := "HIGH", startDateTime := 85, endDateTime := 80 }

noncomputable def userC1 : User := ⟨"u", [taskC1a, taskC1b], none⟩

theorem taskC1a_weight : calculateDynamicWeight taskC1a userC1 clk0 = 8 := by
  have h1 : calculateDynamicWeight taskC1a userC1 clk0 =
      dynamicWeightBase taskC1a userC1 clk0 := rfl
  rw [h1]
  unfold dynamicWeightBase
  norm_num [taskC1a, baseTask, userC1, effectivePreferences, defaultPreferences,
    gpw_high, urgencyFactor, complexityFactor, clk0]

theorem taskC1b_weight : calculateDynamicWeight taskC1b userC1 clk0 = -24 / 5 := by
  have h1 : calculateDynamicWeight taskC1b userC1 clk0 =
      dynamicWeightBase taskC1b userC1 clk0 := rfl
  rw [h1]
  unfold dynamicWeightBase
  norm_num [taskC1b, baseTask, userC1, effectivePreferences, defaultPreferences,
    gpw_high, urgencyFactor, complexityFactor, clk0, min_def, dayMs]

theorem taskC1a_contribs :
    taskCompletedContrib userC1 clk0 taskC1a = 8 ∧ taskTotalContrib userC1 clk0 taskC1a = 8 := by
  unfold taskCompletedContrib taskTotalContrib
  rw [show taskC1a.subTasks.getD [] = ([] : List SubTask) from rfl]
  simp [show taskC1a.completed = true from rfl, taskC1a_weight]

theorem taskC1b_contribs :
    taskCompletedContrib userC1 clk0 taskC1b = 0 ∧
      taskTotalContrib userC1 clk0 taskC1b = -24 / 5 := by
  unfold taskCompletedContrib taskTotalContrib
  rw [show taskC1b.subTasks.getD [] = ([] : List SubTask) from rfl]
  simp [show taskC1b.completed = false from rfl, taskC1b_weight]

theorem c1_state_sums :
    (rtpState userC1 none none clk0).weightedCompletedSum = 8 ∧
      (rtpState userC1 none none clk0).weightedTotalSum = 16 / 5 := by
  obtain ⟨e1, e2⟩ := foldl_weightedSums userC1 clk0 none [taskC1a, taskC1b] initialRTPState
  rw [show rtpState userC1 none none clk0 =
      [taskC1a, taskC1b].foldl (processTask userC1 clk0 none) initialRTPState from rfl]
  rw [e1, e2]
  simp only [List.map_cons, List.map_nil, List.sum_cons, List.sum_nil]
  rw [show filterMismatch none taskC1a.type = false from rfl,
    show filterMismatch none taskC1b.type = false from rfl]
  simp only [Bool.false_eq_true, if_false, taskC1a_contribs.1, taskC1a_contribs.2,
    taskC1b_contribs.1, taskC1b_contribs.2, initialRTPState]
  norm_num

/-- C1 counterexample: default (nonnegative, sum-1) preference ratios and
a nonzero `weightedTotalSum`, yet the percentage is 250 — an inverted
overdue task carries negative dynamic weight, deflating the denominator
below the completed sum. -/
theorem c1_percentage_bounds_cex :
    (rtpState userC1 none none clk0).weightedTotalSum ≠ 0 ∧
      (calculateRTP userC1 none none clk0).percentage = 250 := by
  obtain ⟨h1, h2⟩ := c1_state_sums
  refine ⟨by rw [h2]; norm_num, ?_⟩
  unfold calculateRTP
  rw [if_neg (by rw [h2]; norm_num)]
  dsimp only
  rw [h1, h2]
  norm_num

noncomputable def userC1w : User := ⟨"w", [taskC1a], none⟩

theorem taskC1a_weight_w : calculateDynamicWeight taskC1a userC1w clk0 = 8 := by
  have h1 : calculateDynamicWeight taskC1a userC1w clk0 =
      dynamicWeightBase taskC1a userC1w clk0 := rfl
  rw [h1]
  unfold dynamicWeightBase
  norm_num [taskC1a, baseTask, userC1w, effectivePreferences, defaultPreferences,
    gpw_high, urgencyFactor, complexityFactor, clk0]

theorem c1w_state_sum : (rtpState userC1w none none clk0).weightedTotalSum = 8 := by
  obtain ⟨e1, e2⟩ := foldl_weightedSums userC1w clk0 none [taskC1a] initialRTPState
  rw [show rtpState userC1w none none clk0 =
      [taskC1a].foldl (processTask userC1w clk0 none) initialRTPState from rfl]
  rw [e2]
  simp only [List.map_cons, List.map_nil, List.sum_cons, List.sum_nil]
  rw [show filterMismatch none taskC1a.type = false from rfl]
  simp only [Bool.false_eq_true, if_false, initialRTPState]
  unfold taskTotalContrib
  rw [show taskC1a.subTasks.getD [] = ([] : List SubTask) from rfl]
  simp [taskC1a_weight_w]

theorem c1_percentage_bounds_witness :
    (0 ≤ (effectivePreferences userC1w).deadline ∧ 0 ≤ (effectivePreferences userC1w).priority ∧
      0 ≤ (effectivePreferences userC1w).complexity) ∧
      (0 < (effectivePreferences userC1w).priority + (effectivePreferences userC1w).deadline +
        (effectivePreferences userC1w).complexity) ∧
      (∀ t ∈ userC1w.tasks, t.startDateTime ≤ t.endDateTime ∧ t.startDateTime ≤ clk0.t) ∧
      (rtpState userC1w none none clk0).weightedTotalSum ≠ 0 ∧
      0 ≤ (calculateRTP userC1w none none clk0).percentage ∧
      (calculateRTP userC1w none none clk0).percentage ≤ 100 := by
  have hp : 0 ≤ (effectivePreferences userC1w).deadline ∧
      0 ≤ (effectivePreferences userC1w).priority ∧
      0 ≤ (effectivePreferences userC1w).complexity := by
    norm_num [effectivePreferences, userC1w, defaultPreferences]
  have hs : 0 < (effectivePreferences userC1w).priority + (effectivePreferences userC1w).deadline +
      (effectivePreferences userC1w).complexity := by
    norm_num [effectivePreferences, userC1w, defaultPreferences]
  have hd : ∀ t ∈ userC1w.tasks, t.startDateTime ≤ t.endDateTime ∧ t.startDateTime ≤ clk0.t := by
    intro t ht
    rw [show userC1w.tasks = [taskC1a] from rfl] at ht
    rcases List.mem_singleton.mp ht with rfl
    constructor <;> norm_num [taskC1a, baseTask, clk0]
  have hnz : (rtpState userC1w none none clk0).weightedTotalSum ≠ 0 := by
    rw [c1w_state_sum]; norm_num
  exact ⟨hp, hs, hd, hnz, c1_percentage_bounds userC1w none none clk0 hp hs hd hnz⟩

theorem processTask_estTotals (user : User) (clk : Clock) (ft : Option String)
    (s : RTPState) (task : Task) :
    (processTask user clk ft s task).totalEstimatedTime =
        s.totalEstimatedTime +
          (if ¬ filterMismatch ft task.type ∧ truthyOpt task.estimatedMinutes then
            task.estimatedMinutes.getD 0 else 0) ∧
      (processTask user clk ft s task).totalActualTime =
        s.totalActualTime +
          (if ¬ filterMismatch ft task.type ∧ truthyOpt task.estimatedMinutes ∧
              truthyOpt task.actualMinutes then
            task.actualMinutes.getD 0 else 0) := by
  unfold processTask
  dsimp only
  split_ifs <;> simp_all

/-- A completed task with estimate 1 minute and actual `m` minutes. -/
noncomputable def estTask (m : ℝ) : Task :=
  { baseTask with completed := true, estimatedMinutes := some 1, actualMinutes := some m }

noncomputable def estUser (m : ℝ) : User := ⟨"u", [estTask m], none⟩

theorem estTask_weight (m : ℝ) : calculateDynamicWeight (estTask m) (estUser m) clk0 = 5 := by
  have h1 : calculateDynamicWeight (estTask m) (estUser m) clk0 =
      dynamicWeightBase (estTask m) (estUser m) clk0 := rfl
  rw [h1]
  unfold dynamicWeightBase
  norm_num [estTask, baseTask, estUser, effectivePreferences, defaultPreferences,
    gpw_mid, urgencyFactor, complexityFactor, clk0]

theorem estUser_state (m : ℝ) (hm : m ≠ 0) :
    (rtpState (estUser m) none none clk0).weightedTotalSum = 5 ∧
      (rtpState (estUser m) none none clk0).tasksWithAccurateEstimates = 1 ∧
      (rtpState (estUser m) none none clk0).totalEstimatedTime = 1 ∧
      (rtpState (estUser m) none none clk0).totalActualTime = m := by
  have hstep : rtpState (estUser m) none none clk0 =
      processTask (estUser m) clk0 none initialRTPState (estTask m) := rfl
  have hmis : filterMismatch none (estTask m).type = false := rfl
  have hest : truthyOpt (estTask m).estimatedMinutes := by
    simp [estTask, truthyOpt]
  have hact : truthyOpt (estTask m).actualMinutes := by
    simp [estTask, truthyOpt, hm]
  refine ⟨?_, ?_, ?_, ?_⟩
  · rw [hstep, (processTask_weightedSums (estUser m) clk0 none initialRTPState (estTask m)).2]
    rw [hmis]
    simp only [Bool.false_eq_true, if_false, initialRTPState]
    unfold taskTotalContrib
    rw [show (estTask m).subTasks.getD [] = ([] : List SubTask) from rfl]
    simp [estTask_weight]
  · rw [hstep, processTask_accurate, hmis]
    simp [initialRTPState, hest, hact]
  · rw [hstep, (processTask_estTotals (estUser m) clk0 none initialRTPState (estTask m)).1, hmis]
    simp only [Bool.false_eq_true, not_false_iff, true_and, initialRTPState]
    rw [if_pos hest]
    simp [estTask]
  · rw [hstep, (processTask_estTotals (estUser m) clk0 none initialRTPState (estTask m)).2, hmis]
    simp only [Bool.false_eq_true, not_false_iff, true_and, initialRTPState]
    rw [if_pos ⟨hest, hact⟩]
    simp [estTask]

/-- C6: with a nonzero weighted total sum, `estimationAccuracy` is null
iff no processed task had both estimated and actual minutes recorded
(truthy); otherwise it equals
`min(100, 100 - |actualTotal - estimatedTotal| / estimatedTotal * 100)`
over the accumulated totals and is at most 100; and it is unbounded
below: for every bound some input's accuracy lies strictly beneath it. -/
theorem c6_estimation_accuracy :
    (∀ (user : User) (ft : Option String) (dr : Option DateRange) (clk : Clock),
      (rtpState user ft dr clk).weightedTotalSum ≠ 0 →
        (((calculateRTP user ft dr clk).metrics.estimationAccuracy = none ↔
          ∀ t ∈ dateFiltered user dr, filterMismatch ft t.type = false →
            ¬(truthyOpt t.estimatedMinutes ∧ truthyOpt t.actualMinutes)) ∧
          ∀ a, (calculateRTP user ft dr clk).metrics.estimationAccuracy = some a →
            a = min 100 (100 - |((rtpState user ft dr clk).totalActualTime -
                (rtpState user ft dr clk).totalEstimatedTime) /
                (rtpState user ft dr clk).totalEstimatedTime * 100|) ∧ a ≤ 100)) ∧
      ∀ B : ℝ, ∃ (user : User) (clk : Clock) (a : ℝ),
        (calculateRTP user none none clk).metrics.estimationAccuracy = some a ∧ a < B := by
  constructor
  · intro user ft dr clk hnz
    have hcount : (rtpState user ft dr clk).tasksWithAccurateEstimates =
        (dateFiltered user dr).countP (fun t => !(filterMismatch ft t.type) &&
          decide (truthyOpt t.estimatedMinutes) && decide (truthyOpt t.actualMinutes)) := by
      rw [show rtpState user ft dr clk =
          (dateFiltered user dr).foldl (processTask user clk ft) initialRTPState from rfl,
        foldl_accurate]
      simp [initialRTPState]
    have hzero : (rtpState user ft dr clk).tasksWithAccurateEstimates = 0 ↔
        ∀ t ∈ dateFiltered user dr, filterMismatch ft t.type = false →
          ¬(truthyOpt t.estimatedMinutes ∧ truthyOpt t.actualMinutes) := by
      rw [hcount, List.countP_eq_zero]
      constructor
      · intro h t ht hf htr
        have h2 := h t ht
        simp only [Bool.and_eq_true, Bool.not_eq_true', decide_eq_true_eq] at h2
        exact h2 ⟨⟨hf, htr.1⟩, htr.2⟩
      · intro h t ht
        simp only [Bool.and_eq_true, Bool.not_eq_true', decide_eq_true_eq, not_and]
        intro hp h1
        exact h t ht hp.1 ⟨hp.2, h1⟩
    constructor
    · unfold calculateRTP
      rw [if_neg hnz]
      dsimp only
      rw [← hzero]
      split_ifs with h <;> simp <;> omega
    · intro a ha
      unfold calculateRTP at ha
      rw [if_neg hnz] at ha
      dsimp only at ha
      by_cases hpos : 0 < (rtpState user ft dr clk).tasksWithAccurateEstimates
      · rw [if_pos hpos] at ha
        have h3 := Option.some.inj ha
        exact ⟨h3.symm, h3 ▸ min_le_left _ _⟩
      · rw [if_neg hpos] at ha
        exact absurd ha (by simp)
  · intro B
    have hB := abs_nonneg B
    have hm : (3 + |B| : ℝ) ≠ 0 := by linarith
    obtain ⟨hw, hacc, hest, hact⟩ := estUser_state (3 + |B|) hm
    refine ⟨estUser (3 + |B|), clk0, -100 - 100 * |B|, ?_, ?_⟩
    · unfold calculateRTP
      rw [if_neg (by rw [hw]; norm_num)]
      dsimp only
      rw [if_pos (by rw [hacc]; norm_num), hest, hact]
      congr 1
      have h1 : |(3 + |B| - 1) / 1 * 100| = (2 + |B|) * 100 := by
        rw [abs_of_nonneg (by linarith)]
        ring
      rw [h1]
      rw [min_eq_right (by linarith)]
      ring
    · linarith [neg_abs_le B]

theorem c6_estimation_accuracy_witness :
    (rtpState (estUser 3) none none clk0).weightedTotalSum ≠ 0 ∧
      (calculateRTP (estUser 3) none none clk0).metrics.estimationAccuracy = some (-100) ∧
      (-100 : ℝ) ≤ 100 := by
  obtain ⟨hw, hacc, hest, hact⟩ := estUser_state 3 (by norm_num)
  have hnz : (rtpState (estUser 3) none none clk0).weightedTotalSum ≠ 0 := by
    rw [hw]; norm_num
  have hsome : (calculateRTP (estUser 3) none none clk0).metrics.estimationAccuracy =
      some (-100) := by
    unfold calculateRTP
    rw [if_neg hnz]
    dsimp only
    rw [if_pos (by rw [hacc]; norm_num), hest, hact]
    congr 1
    rw [show ((3 : ℝ) - 1) / 1 * 100 = 200 by norm_num,
      show |(200 : ℝ)| = 200 from abs_of_nonneg (by norm_num)]
    rw [min_eq_right (by norm_num)]
    norm_num
  exact ⟨hnz, hsome,
    ((c6_estimation_accuracy.1 (estUser 3) none none clk0 hnz).2 (-100) hsome).2⟩

/-- C9: a partial task with a 400-character description, exactly 6
subtasks, a 30-hour duration (both timestamps present), none of the
classifier's keywords in name plus description, no collaborators, no
blocking tasks and no (truthy) estimated minutes accumulates scores
HIGH = 3+4+3 = 10, MID = 0, LOW = 0, hence type HIGH with priority 9. -/
theorem c9_classifier_scenario (t : PartialTask) (d : String)
    (hdesc : t.description = some d) (hlen : d.length = 400)
    (hsub : (t.subTasks.getD []).length = 6)
    (a b : ℝ) (hsa : t.startDateTime = some a) (hsb : t.endDateTime = some b)
    (hdur : b - a = 30 * 3600000)
    (hkw : ∀ kw ∈ highPriorityKeywords ++ midPriorityKeywords ++ lowPriorityKeywords,
      includesStr (lowerStr ((t.name.getD "") ++ " " ++ d)) kw = false)
    (hcol : (t.collaborators.getD []) = []) (hblk : (t.blockedBy.getD []) = [])
    (hest : ¬ truthyOpt t.estimatedMinutes) :
    classifyScores t = ⟨0, 0, 10⟩ ∧ classifyTask t = ("HIGH", 9) := by
  have htext : ∀ ls : List String,
      (∀ kw ∈ ls, kw ∈ highPriorityKeywords ++ midPriorityKeywords ++ lowPriorityKeywords) →
      ls.countP (fun kw =>
        includesStr (lowerStr ((t.name.getD "") ++ " " ++ (t.description.getD ""))) kw) = 0 := by
    intro ls hls
    apply List.countP_eq_zero.mpr
    intro kw hm
    rw [hdesc]
    simp only [Option.getD_some]
    rw [hkw kw (hls kw hm)]
    simp
  have hH := htext highPriorityKeywords (fun kw hm => by simp [List.mem_append, hm])
  have hM := htext midPriorityKeywords (fun kw hm => by simp [List.mem_append, hm])
  have hL := htext lowPriorityKeywords (fun kw hm => by simp [List.mem_append, hm])
  have hscores : classifyScores t = ⟨0, 0, 10⟩ := by
    unfold classifyScores
    rw [hsa, hsb]
    dsimp only
    rw [hH, hM, hL, hdesc]
    simp only [Option.getD_some]
    simp only [hlen, hsub, hdur, hcol, hblk]
    rw [if_neg hest]
    norm_num [Scores.add]
  refine ⟨hscores, ?_⟩
  unfold classifyTask
  rw [hscores]
  dsimp only
  rw [if_pos (by norm_num : (0 : ℕ) < 10 ∧ (0 : ℕ) < 10)]
  rw [if_neg (by norm_num : ¬((0 : ℕ) + 0 + 10 = 0))]
  have h9 : ((10 * 3 + 0 * 2 + 0 : ℕ) : ℝ) / (((0 : ℕ) + 0 + 10 : ℕ) : ℝ) * 3 =
      ((9 : ℤ) : ℝ) := by
    push_cast
    norm_num
  rw [h9, round_intCast]
  norm_num

theorem not_infix_of_bad_char (l text : List Char) (c : Char) (hc : c ∈ l)
    (hmem : ∀ x ∈ text, x = ' ' ∨ x = 'z') (h1 : c ≠ ' ') (h2 : c ≠ 'z') :
    ¬ (l <:+: text) := fun h => ((hmem c (h.subset hc)).elim h1 h2)

/-- A 400-character description with no classifier keywords. -/
noncomputable def descC9 : String := String.mk (List.replicate 400 'z')

/-- The concrete partial task of the classifier scenario. -/
noncomputable def taskC9 : PartialTask :=
  { name := none, description := some descC9, startDateTime := some 0,
    endDateTime := some 108000000, subTasks := some (List.replicate 6 subC10),
    estimatedMinutes := none, blockedBy := none, collaborators := none }

theorem descC9_data :
    (lowerStr ((taskC9.name.getD "") ++ " " ++ descC9)).data =
      ' ' :: List.replicate 400 'z' := by
  show (("" ++ " " ++ descC9).data.map Char.toLower) = ' ' :: List.replicate 400 'z'
  rw [show ("" ++ " " ++ descC9).data = ' ' :: List.replicate 400 'z' from rfl]
  rw [List.map_cons, List.map_replicate]
  rw [show Char.toLower ' ' = ' ' from rfl, show Char.toLower 'z' = 'z' from rfl]

theorem taskC9_no_keywords :
    ∀ kw ∈ highPriorityKeywords ++ midPriorityKeywords ++ lowPriorityKeywords,
      includesStr (lowerStr ((taskC9.name.getD "") ++ " " ++ descC9)) kw = false := by
  have hmem : ∀ x ∈ (' ' :: List.replicate 400 'z'), x = ' ' ∨ x = 'z' := by
    intro x hx
    rcases List.mem_cons.mp hx with h | h
    · exact Or.inl h
    · exact Or.inr (List.eq_of_mem_replicate h)
  have hex : ∀ kw ∈ highPriorityKeywords ++ midPriorityKeywords ++ lowPriorityKeywords,
      ∃ c ∈ kw.data, c ≠ ' ' ∧ c ≠ 'z' := by decide
  intro kw hkw
  unfold includesStr
  rw [descC9_data]
  obtain ⟨c, hc, h1, h2⟩ := hex kw hkw
  rw [decide_eq_false_iff_not]
  exact not_infix_of_bad_char _ _ c hc hmem h1 h2

set_option maxRecDepth 4000 in
theorem c9_classifier_scenario_witness :
    taskC9.description = some descC9 ∧ descC9.length = 400 ∧
      (taskC9.subTasks.getD []).length = 6 ∧
      classifyScores taskC9 = ⟨0, 0, 10⟩ ∧ classifyTask taskC9 = ("HIGH", 9) := by
  have hlen : descC9.length = 400 := by
    show (List.replicate 400 'z').length = 400
    rw [List.length_replicate]
  have hsub : (taskC9.subTasks.getD []).length = 6 := rfl
  have h := c9_classifier_scenario taskC9 descC9 rfl hlen hsub 0 108000000 rfl rfl
    (by norm_num) taskC9_no_keywords rfl rfl (by simp [taskC9, truthyOpt])
  exact ⟨rfl, hlen, hsub, h.1, h.2⟩

end Dashboard
